import Mathlib

/-!
Verification of the terminal viewport core of OpenChamber
(src/packages/ui/src/components/terminal/TerminalViewport.tsx).

The development shallowly embeds the three cores of the component:
* the Write Queue (enqueueWrite / flushWriteQueue / resetWriteState,
  lines 51-119 of the source),
* the Reconciliation Controller (the chunks effect, lines 488-522),
* the Kinetic Scroll Engine (setupTouchScroll, lines 121-411),
* the Resize Coordinator guard (fitTerminal, lines 58-73).

Mutable refs become fields of explicit state records.  Calls to the
external rendering surface (xterm) are recorded in ghost trace fields:
`issued` logs every term.write call, `completed` counts completion
callbacks that have fired, `resets` counts terminal.reset calls and
`fitCalls` counts fitTerminal invocations.  JS numbers are modelled as
rationals.
-/

namespace OpenChamber

/-- One output fragment of the Chunk Store
(`TerminalChunk` of useTerminalStore): an id and a data payload. -/
structure TerminalChunk where
  id : Int
  data : String
deriving DecidableEq, Repr

/-- The mutable state of the viewport write pipeline.  The first four
fields embed the refs of the component (writeQueueRef, isWritingRef,
processedCountRef, firstChunkIdRef).  The remaining fields are ghost
observation traces of the calls made to the rendering surface and of the
enqueue requests issued by the reconciliation effect. -/
structure VState where
  writeQueue : List String
  isWriting : Bool
  processedCount : Nat
  firstChunkId : Option Int
  /-- ghost: payloads passed to term.write, in issue order -/
  issued : List String
  /-- ghost: how many issued writes have had their completion callback fire -/
  completed : Nat
  /-- ghost: number of terminal.reset calls -/
  resets : Nat
  /-- ghost: number of fitTerminal invocations made by the reconciliation effect -/
  fitCalls : Nat
  /-- ghost: payloads handed to enqueueWrite by the reconciliation effect -/
  enqueueCalls : List String
deriving DecidableEq, Repr

/-- The state of a freshly mounted viewport: all refs at their initial
values, empty ghost traces. -/
def initState : VState :=
  { writeQueue := [], isWriting := false, processedCount := 0,
    firstChunkId := none, issued := [], completed := 0, resets := 0,
    fitCalls := 0, enqueueCalls := [] }

/-- Source lines 51-56: clears the pending queue, the busy flag, the
processed count and the first observed chunk id. -/
def resetWriteState (s : VState) : VState :=
  { s with writeQueue := [], isWriting := false, processedCount := 0,
           firstChunkId := none }

/-- Source lines 80-104 (the synchronous part of consumeNext): shift the
next payload off the queue; when the queue is empty clear the busy flag,
otherwise set the busy flag and issue the write to the rendering surface.
The terminal is present in the model, so the null-terminal guard does not
fire.  The completion callback passed to term.write is modelled
separately by `completeWrite`. -/
def consumeNext (s : VState) : VState :=
  match s.writeQueue with
  | [] => { s with isWriting := false }
  | chunk :: rest =>
      { s with writeQueue := rest, isWriting := true,
               issued := s.issued ++ [chunk] }

/-- Source lines 75-107: a flush returns immediately when the busy flag
is set, otherwise runs consumeNext. -/
def flushWriteQueue (s : VState) : VState :=
  if s.isWriting then s else consumeNext s

/-- Source lines 94-103: the completion callback of the oldest
outstanding write fires.  It clears the busy flag and, when the queue is
non-empty, runs consumeNext (the source defers it with setTimeout 0;
in the single-threaded trace model the deferred call is the next thing
that runs, so it is inlined).  A callback can only fire while a write is
outstanding. -/
def completeWrite (s : VState) : VState :=
  if s.completed < s.issued.length then
    let s1 : VState := { s with completed := s.completed + 1, isWriting := false }
    if s1.writeQueue.isEmpty then s1 else consumeNext s1
  else s

/-- Source lines 109-119: enqueueWrite drops falsy (empty) payloads,
otherwise replaces the queue content with the single new payload, clears
the busy flag, and flushes. -/
def enqueueWrite (data : String) (s : VState) : VState :=
  if data = "" then s
  else flushWriteQueue { s with writeQueue := [data], isWriting := false }

/-- Source lines 488-522, the chunks reconciliation effect, with the
terminal present.  Ghost bookkeeping: terminal.reset bumps `resets`,
fitTerminal bumps `fitCalls`, and the payload handed to enqueueWrite is
appended to `enqueueCalls` at the call site. -/
def reconcileChunks (chunks : List TerminalChunk) (s : VState) : VState :=
  match chunks with
  | [] =>
      if s.processedCount ≠ 0 then
        { resetWriteState { s with resets := s.resets + 1 } with
          fitCalls := s.fitCalls + 1 }
      else s
  | first :: rest =>
      let s0 := if s.firstChunkId = none
        then { s with firstChunkId := some first.id } else s
      let s1 := if s0.firstChunkId ≠ some first.id ∨
                   (first :: rest).length < s0.processedCount
        then { resetWriteState { s0 with resets := s0.resets + 1 } with
               firstChunkId := some first.id }
        else s0
      if s1.processedCount < (first :: rest).length then
        let payload :=
          String.join (((first :: rest).drop s1.processedCount).map TerminalChunk.data)
        { enqueueWrite payload
            { s1 with enqueueCalls := s1.enqueueCalls ++ [payload] } with
          processedCount := (first :: rest).length }
      else s1

/-! ## Resize Coordinator (fitTerminal, source lines 58-73) -/

/-- Ghost observation of the Resize Coordinator: how many grid refits
have been performed (fitAddon.fit calls) and the column/row pairs handed
to the external resize callback. -/
structure FitState where
  fitCount : Nat
  reported : List (Nat × Nat)
deriving DecidableEq, Repr

/-- Source lines 58-73: fitTerminal measures the container and returns
without refitting when either measured dimension is below 24 pixels;
otherwise it performs the grid refit and reports the resulting cols/rows
to the external resize callback.  The addon/terminal/container null
guards do not fire in the model (a mounted viewport), and a throwing fit
is modelled as the successful case of the try block. -/
def fitTerminal (width height : ℚ) (cols rows : Nat) (s : FitState) : FitState :=
  if width < 24 ∨ height < 24 then s
  else { fitCount := s.fitCount + 1, reported := s.reported ++ [(cols, rows)] }

/-! ## Kinetic Scroll Engine (setupTouchScroll, source lines 121-411) -/

/-- Source line 139. -/
def baseScrollMultiplier : ℚ := 2.2
/-- Source line 140. -/
def maxScrollBoost : ℚ := 2.8
/-- Source line 141. -/
def boostDenominator : ℚ := 25
/-- Source line 142. -/
def velocityAlpha : ℚ := 0.25
/-- Source line 143. -/
def maxVelocity : ℚ := 8
/-- Source line 144. -/
def minVelocity : ℚ := 0.05
/-- Source line 145. -/
def deceleration : ℚ := 0.015

/-- The scrollable region of the rendering surface
(the .xterm-viewport element), as read and written by the engine. -/
structure ScrollView where
  scrollHeight : ℚ
  clientHeight : ℚ
  scrollTop : ℚ
deriving DecidableEq, Repr

/-- Source line 156. -/
def getMaxScrollTop (v : ScrollView) : ℚ :=
  max 0 (v.scrollHeight - v.clientHeight)

/-- Source lines 158-161: assigning viewport.scrollTop clamped into
[0, maxScrollTop]. -/
def setScrollTop (v : ScrollView) (nextScrollTop : ℚ) : ScrollView :=
  { v with scrollTop := max 0 (min (getMaxScrollTop v) nextScrollTop) }

/-- Source lines 163-170: a zero delta returns early (the JS function
returns undefined, modelled as none); otherwise the view is scrolled and
the boolean reports whether scrollTop actually changed. -/
def scrollByPixels (v : ScrollView) (deltaPixels : ℚ) : ScrollView × Option Bool :=
  if deltaPixels = 0 then (v, none)
  else
    let previous := v.scrollTop
    let v1 := setScrollTop v (previous + deltaPixels)
    (v1, some (decide (v1.scrollTop ≠ previous)))

/-- Math.sign of JavaScript on a rational. -/
def jsSign (x : ℚ) : ℚ :=
  if 0 < x then 1 else if x < 0 then -1 else 0

/-- The gesture state of the engine (source lines 147-152): last sampled
position and timestamp, smoothed velocity, the scrollable view, and
whether an inertial animation frame is scheduled (rafId not null).
The pointerId bookkeeping of the pointer path only filters which events
reach the handlers and is left outside the model. -/
structure GestureState where
  lastY : Option ℚ
  lastTime : Option ℚ
  velocity : ℚ
  view : ScrollView
  running : Bool
deriving DecidableEq, Repr

/-- Source lines 199-238, handlePointerMove after its pointer-type and
pointer-id guards, with the current clientY `y` and current time `t`
(nowMs is read once; the source reads it twice in the same handler turn,
with the same value in the model). -/
def handlePointerMove (y t : ℚ) (s : GestureState) : GestureState :=
  match s.lastY with
  | none => { s with lastY := some y, lastTime := some t }
  | some previousY =>
      let previousTime := s.lastTime.getD t
      let s1 := { s with lastY := some y, lastTime := some t }
      let deltaY := previousY - y
      if |deltaY| < 1 then s1
      else
        let dt := max (t - previousTime) 8
        let scrollMultiplier :=
          baseScrollMultiplier + min maxScrollBoost (|deltaY| / boostDenominator)
        let deltaPixels := deltaY * scrollMultiplier
        let instantVelocity := deltaPixels / dt
        let v1 := s1.velocity * (1 - velocityAlpha) + instantVelocity * velocityAlpha
        let v2 := if maxVelocity < v1 then maxVelocity
          else if v1 < -maxVelocity then -maxVelocity else v1
        { s1 with velocity := v2, view := (scrollByPixels s1.view deltaPixels).1 }

/-- Source lines 314-356, handleTouchMove after its single-touch guard,
with the current touch clientY `y` and current time `t`.  The body is
the same kinematics as the pointer path. -/
def handleTouchMove (y t : ℚ) (s : GestureState) : GestureState :=
  match s.lastY with
  | none => { s with lastY := some y, lastTime := some t }
  | some previousY =>
      let previousTime := s.lastTime.getD t
      let s1 := { s with lastY := some y, lastTime := some t }
      let deltaY := previousY - y
      if |deltaY| < 1 then s1
      else
        let dt := max (t - previousTime) 8
        let scrollMultiplier :=
          baseScrollMultiplier + min maxScrollBoost (|deltaY| / boostDenominator)
        let deltaPixels := deltaY * scrollMultiplier
        let instantVelocity := deltaPixels / dt
        let v1 := s1.velocity * (1 - velocityAlpha) + instantVelocity * velocityAlpha
        let v2 := if maxVelocity < v1 then maxVelocity
          else if v1 < -maxVelocity then -maxVelocity else v1
        { s1 with velocity := v2, view := (scrollByPixels s1.view deltaPixels).1 }

/-- The value `moved` computed by one inertia frame of the step loop
(source line 266 and line 377): whether scrolling by velocity * dt moved
the view, with the undefined return of a zero delta coerced to false. -/
def inertiaMoved (dtRaw : ℚ) (s : GestureState) : Bool :=
  ((scrollByPixels s.view (s.velocity * max dtRaw 8)).2).getD false

/-- The decayed magnitude computed by one inertia frame (source line 269
and line 380): the velocity magnitude reduced by deceleration * dt,
floored at zero, where dt is the frame delta floored at 8 ms. -/
def inertiaNextMagnitude (dtRaw : ℚ) (s : GestureState) : ℚ :=
  max 0 (|s.velocity| - deceleration * max dtRaw 8)

/-- One frame of the inertial animation loop (`step`, source lines
261-279 of the pointer path and 372-390 of the touch path; the two
bodies are identical).  `dtRaw` is frameTime - lastFrame.  A frame only
runs while an animation is scheduled (running); it scrolls by
velocity * dt, decays the velocity magnitude preserving the sign, and
stops (velocity zeroed, no further frame) when the view failed to move
or the decayed magnitude is at most minVelocity. -/
def inertiaStep (dtRaw : ℚ) (s : GestureState) : GestureState :=
  if s.running = false then s
  else
    let s1 := { s with
      view := (scrollByPixels s.view (s.velocity * max dtRaw 8)).1,
      velocity := inertiaNextMagnitude dtRaw s * jsSign s.velocity }
    if inertiaMoved dtRaw s = false ∨ inertiaNextMagnitude dtRaw s ≤ minVelocity then
      { s1 with velocity := 0, running := false }
    else s1

/-- Running the animation over a sequence of raw frame deltas. -/
def runInertia (s : GestureState) (dts : List ℚ) : GestureState :=
  dts.foldl (fun a d => inertiaStep d a) s

/-- Source lines 240-282, handlePointerUp after its guards: the sampling
state is cleared; a release with velocity magnitude below minVelocity
zeroes the velocity and starts no animation, otherwise the animation
loop is started (the first frame is scheduled). -/
def handlePointerUp (s : GestureState) : GestureState :=
  let s1 := { s with lastY := none, lastTime := none }
  if |s1.velocity| < minVelocity then { s1 with velocity := 0, running := false }
  else { s1 with running := true }

/-- Source lines 358-393, handleTouchEnd: identical release logic to the
pointer path. -/
def handleTouchEnd (s : GestureState) : GestureState :=
  let s1 := { s with lastY := none, lastTime := none }
  if |s1.velocity| < minVelocity then { s1 with velocity := 0, running := false }
  else { s1 with running := true }

/-- Folding raw scroll mutations over the view; every scroll mutation
the engine performs (line 237, line 266, line 355, line 377) goes
through scrollByPixels. -/
def applyScrollDeltas (v : ScrollView) (ds : List ℚ) : ScrollView :=
  ds.foldl (fun a d => (scrollByPixels a d).1) v

/-! ## Helper lemmas -/

lemma enqueueWrite_ghost (d : String) (t : VState) :
    (enqueueWrite d t).processedCount = t.processedCount ∧
    (enqueueWrite d t).firstChunkId = t.firstChunkId ∧
    (enqueueWrite d t).resets = t.resets ∧
    (enqueueWrite d t).fitCalls = t.fitCalls ∧
    (enqueueWrite d t).enqueueCalls = t.enqueueCalls ∧
    (enqueueWrite d t).completed = t.completed := by
  unfold enqueueWrite
  split_ifs with h
  · exact ⟨rfl, rfl, rfl, rfl, rfl, rfl⟩
  · simp [flushWriteQueue, consumeNext]

lemma enqueueWrite_issued_of_ne (d : String) (t : VState) (hd : d ≠ "") :
    (enqueueWrite d t).issued = t.issued ++ [d] ∧
    (enqueueWrite d t).writeQueue = [] ∧
    (enqueueWrite d t).isWriting = true := by
  simp [enqueueWrite, hd, flushWriteQueue, consumeNext]

lemma enqueueWrite_processedCount (d : String) (t : VState) :
    (enqueueWrite d t).processedCount = t.processedCount := (enqueueWrite_ghost d t).1

lemma enqueueWrite_firstChunkId (d : String) (t : VState) :
    (enqueueWrite d t).firstChunkId = t.firstChunkId := (enqueueWrite_ghost d t).2.1

lemma enqueueWrite_resets (d : String) (t : VState) :
    (enqueueWrite d t).resets = t.resets := (enqueueWrite_ghost d t).2.2.1

lemma enqueueWrite_enqueueCalls (d : String) (t : VState) :
    (enqueueWrite d t).enqueueCalls = t.enqueueCalls := (enqueueWrite_ghost d t).2.2.2.2.1

lemma enqueueWrite_writeQueue (d : String) (t : VState) (ht : t.writeQueue = []) :
    (enqueueWrite d t).writeQueue = [] := by
  unfold enqueueWrite
  split_ifs with h
  · exact ht
  · simp [flushWriteQueue, consumeNext]

lemma enqueueWrite_issued_cases (d : String) (t : VState) :
    (enqueueWrite d t).issued = t.issued ++ (if d = "" then [] else [d]) := by
  by_cases hd : d = ""
  · simp [enqueueWrite, hd]
  · simp [hd, (enqueueWrite_issued_of_ne d t hd).1]

/-! ## The claims -/

/-- C10: enqueueWrite with an empty payload is a complete no-op of the
Write Queue at its public interface: the whole state, in particular the
pending payload slot (writeQueue), the busy flag (isWriting), and the
ghost trace of writes issued to the rendering surface, is returned
unchanged. -/
theorem empty_enqueue_is_noop (s : VState) : enqueueWrite "" s = s := by
  simp [enqueueWrite]

/-- C1: the claim fails on the code.  Starting from the initial state,
enqueueWrite "a" issues a write and sets the busy flag; the guard of
flushWriteQueue would indeed refuse a second write while the flag is
set; but a second enqueueWrite "b", arriving before the completion
callback of the first write has fired (completed = 0 throughout),
force-clears the busy flag and issues a second write: after it, two
writes have been issued and zero completion callbacks have fired, so two
writes are outstanding at once. -/
theorem second_write_issued_before_completion :
    (enqueueWrite "a" initState).isWriting = true ∧
    flushWriteQueue (enqueueWrite "a" initState) = enqueueWrite "a" initState ∧
    (enqueueWrite "b" (enqueueWrite "a" initState)).issued = ["a", "b"] ∧
    (enqueueWrite "b" (enqueueWrite "a" initState)).completed = 0 := by
  decide

/-- C7 counterexample: the claim states that the fit is performed only
when both container dimensions exceed 24 pixels, and that it is skipped
whenever a dimension does not exceed 24.  A 24 x 24 container does not
exceed 24 in either axis, yet the code performs the fit (the guard skips
only on a dimension strictly below 24). -/
theorem fit_performed_at_exactly_24 :
    (fitTerminal 24 24 80 24 ⟨0, []⟩).fitCount = 1 ∧ ¬ ((24 : ℚ) < 24) := by
  constructor
  · norm_num [fitTerminal]
  · norm_num

/-- C7 amended: fitTerminal performs the grid refit and reports to the
external resize callback exactly when both measured dimensions are at
least 24 pixels; it is skipped entirely when the width or the height is
strictly below 24.  In particular a 20 x 20 container never fits and a
30 x 30 container does. -/
theorem fit_guard (w h : ℚ) (c r : Nat) (s : FitState) :
    ((w < 24 ∨ h < 24) → fitTerminal w h c r s = s) ∧
    (24 ≤ w → 24 ≤ h →
      fitTerminal w h c r s = ⟨s.fitCount + 1, s.reported ++ [(c, r)]⟩) := by
  constructor
  · intro hlt
    simp only [fitTerminal, if_pos hlt]
  · intro hw hh
    have hng : ¬ (w < 24 ∨ h < 24) := by push_neg; exact ⟨hw, hh⟩
    simp only [fitTerminal, if_neg hng]

/-- C7 witness: 20 x 20 triggers no fit, 30 x 30 triggers one. -/
theorem fit_guard_witness :
    fitTerminal 20 20 80 24 ⟨0, []⟩ = ⟨0, []⟩ ∧
    (fitTerminal 30 30 80 24 ⟨0, []⟩).fitCount = 1 := by
  refine ⟨(fit_guard 20 20 80 24 ⟨0, []⟩).1 (by norm_num), ?_⟩
  rw [(fit_guard 30 30 80 24 ⟨0, []⟩).2 (by norm_num) (by norm_num)]

/-- C8: the jitter floor.  A move sample whose vertical delta has
magnitude strictly below one pixel performs no scroll mutation and no
velocity update: the view and the velocity are exactly as before the
sample, in both the pointer-event path and the legacy-touch path. -/
theorem jitter_floor_no_scroll_no_velocity (y t prevY : ℚ) (s : GestureState)
    (hprev : s.lastY = some prevY) (hj : |prevY - y| < 1) :
    (handlePointerMove y t s).view = s.view ∧
    (handlePointerMove y t s).velocity = s.velocity ∧
    (handleTouchMove y t s).view = s.view ∧
    (handleTouchMove y t s).velocity = s.velocity := by
  simp [handlePointerMove, handleTouchMove, hprev, hj]

/-- C8 witness: a 0.5 pixel sample leaves view and velocity unchanged. -/
theorem jitter_floor_witness :
    (handlePointerMove 100.5 20 ⟨some 100, some 10, 3, ⟨100, 40, 5⟩, false⟩).view
        = (⟨some 100, some 10, 3, ⟨100, 40, 5⟩, false⟩ : GestureState).view ∧
    (handlePointerMove 100.5 20 ⟨some 100, some 10, 3, ⟨100, 40, 5⟩, false⟩).velocity
        = (⟨some 100, some 10, 3, ⟨100, 40, 5⟩, false⟩ : GestureState).velocity ∧
    (handleTouchMove 100.5 20 ⟨some 100, some 10, 3, ⟨100, 40, 5⟩, false⟩).view
        = (⟨some 100, some 10, 3, ⟨100, 40, 5⟩, false⟩ : GestureState).view ∧
    (handleTouchMove 100.5 20 ⟨some 100, some 10, 3, ⟨100, 40, 5⟩, false⟩).velocity
        = (⟨some 100, some 10, 3, ⟨100, 40, 5⟩, false⟩ : GestureState).velocity :=
  jitter_floor_no_scroll_no_velocity 100.5 20 100 _ rfl (by rw [abs_lt]; constructor <;> norm_num)

/-- C9: a move sample ignored by the jitter floor still overwrites the
stored last position and last timestamp before the delta check: the
resulting state is exactly the input state with lastY and lastTime set
to the ignored sample.  Since lastY/lastTime are the only memory the
next sample reads, the next deltaY and dt are measured relative to the
ignored sample, not relative to the last sample that caused a scroll.
Holds in both the pointer-event path and the legacy-touch path. -/
theorem ignored_sample_overwrites_last (y t prevY : ℚ) (s : GestureState)
    (hprev : s.lastY = some prevY) (hj : |prevY - y| < 1) :
    handlePointerMove y t s = { s with lastY := some y, lastTime := some t } ∧
    handleTouchMove y t s = { s with lastY := some y, lastTime := some t } := by
  simp [handlePointerMove, handleTouchMove, hprev, hj]

lemma scrollByPixels_dims (v : ScrollView) (d : ℚ) :
    ((scrollByPixels v d).1).scrollHeight = v.scrollHeight ∧
    ((scrollByPixels v d).1).clientHeight = v.clientHeight := by
  unfold scrollByPixels
  split_ifs <;> simp [setScrollTop]

lemma scrollByPixels_clamped (v : ScrollView) (d : ℚ)
    (h1 : v.clientHeight ≤ v.scrollHeight) (h2 : 0 ≤ v.scrollTop)
    (h3 : v.scrollTop ≤ v.scrollHeight - v.clientHeight) :
    0 ≤ ((scrollByPixels v d).1).scrollTop ∧
    ((scrollByPixels v d).1).scrollTop ≤ v.scrollHeight - v.clientHeight := by
  unfold scrollByPixels
  split_ifs with hd
  · exact ⟨h2, h3⟩
  · dsimp [setScrollTop, getMaxScrollTop]
    have hnn : (0 : ℚ) ≤ v.scrollHeight - v.clientHeight := sub_nonneg.mpr h1
    refine ⟨le_max_left 0 _, ?_⟩
    refine max_le hnn (le_trans (min_le_left _ _) (le_of_eq (max_eq_right hnn)))

/-- C5: the scroll clamping invariant.  Every scroll mutation the engine
performs (tracking moves as well as inertial animation frames) goes
through scrollByPixels; for any such sequence of mutations, starting
from an offset inside [0, scrollHeight - clientHeight] on a view whose
content is at least as tall as its client area, the offset stays inside
[0, scrollHeight - clientHeight], and in particular no single mutation
leaves the interval. -/
theorem scroll_offset_stays_clamped (v : ScrollView) (ds : List ℚ)
    (h1 : v.clientHeight ≤ v.scrollHeight) (h2 : 0 ≤ v.scrollTop)
    (h3 : v.scrollTop ≤ v.scrollHeight - v.clientHeight) :
    0 ≤ (applyScrollDeltas v ds).scrollTop ∧
    (applyScrollDeltas v ds).scrollTop ≤ v.scrollHeight - v.clientHeight := by
  induction ds generalizing v with
  | nil => exact ⟨h2, h3⟩
  | cons d rest ih =>
    have hstep : applyScrollDeltas v (d :: rest)
        = applyScrollDeltas ((scrollByPixels v d).1) rest := by
      simp [applyScrollDeltas]
    obtain ⟨hsh, hch⟩ := scrollByPixels_dims v d
    obtain ⟨hc0, hc1⟩ := scrollByPixels_clamped v d h1 h2 h3
    rw [hstep]
    have := ih ((scrollByPixels v d).1)
      (by rw [hsh, hch]; exact h1) hc0 (by rw [hsh, hch]; exact hc1)
    rw [hsh, hch] at this
    exact this

/-- C5 witness: a view of height 100 with a 40 pixel client area, hit by
a large up-and-down delta sequence, keeps its offset in [0, 60]. -/
theorem scroll_clamp_witness :
    0 ≤ (applyScrollDeltas ⟨100, 40, 0⟩ [10, -500, 1000, -3]).scrollTop ∧
    (applyScrollDeltas ⟨100, 40, 0⟩ [10, -500, 1000, -3]).scrollTop
      ≤ (⟨100, 40, 0⟩ : ScrollView).scrollHeight - (⟨100, 40, 0⟩ : ScrollView).clientHeight :=
  scroll_offset_stays_clamped ⟨100, 40, 0⟩ [10, -500, 1000, -3]
    (by norm_num) (by norm_num) (by norm_num)

lemma inertiaStep_of_not_running (d : ℚ) (s : GestureState)
    (h : s.running = false) : inertiaStep d s = s := by
  simp [inertiaStep, h]

lemma runInertia_of_not_running (dts : List ℚ) (s : GestureState)
    (h : s.running = false) : runInertia s dts = s := by
  induction dts with
  | nil => rfl
  | cons d rest ih =>
    have : runInertia s (d :: rest) = runInertia (inertiaStep d s) rest := by
      simp [runInertia]
    rw [this, inertiaStep_of_not_running d s h, ih]

lemma decel_times_floor (d : ℚ) : deceleration * 8 ≤ deceleration * max d 8 := by
  have h8 : (8 : ℚ) ≤ max d 8 := le_max_right d 8
  have : (0 : ℚ) ≤ deceleration := by norm_num [deceleration]
  exact mul_le_mul_of_nonneg_left h8 this

lemma inertiaStep_running_facts (d : ℚ) (s : GestureState)
    (h : (inertiaStep d s).running = true) :
    s.running = true ∧
    minVelocity < |(inertiaStep d s).velocity| ∧
    |(inertiaStep d s).velocity| ≤ |s.velocity| - deceleration * 8 := by
  cases hrun : s.running with
  | false =>
    rw [inertiaStep_of_not_running d s hrun, hrun] at h
    cases h
  | true =>
    refine ⟨rfl, ?_⟩
    by_cases hstop : inertiaMoved d s = false ∨ inertiaNextMagnitude d s ≤ minVelocity
    · have : (inertiaStep d s).running = false := by
        simp [inertiaStep, hrun, hstop]
      rw [this] at h; cases h
    · push_neg at hstop
      obtain ⟨hmv, hmag⟩ := hstop
      have hmv' : inertiaMoved d s = true := by
        revert hmv; cases inertiaMoved d s <;> simp
      have hstep : inertiaStep d s = { s with
          view := (scrollByPixels s.view (s.velocity * max d 8)).1,
          velocity := inertiaNextMagnitude d s * jsSign s.velocity } := by
        simp [inertiaStep, hrun]
        exact ⟨hmv', hmag⟩
      have hv0 : s.velocity ≠ 0 := by
        intro h0
        have : inertiaNextMagnitude d s = 0 := by
          have hle : |s.velocity| - deceleration * max d 8 ≤ 0 := by
            rw [h0, abs_zero]
            have := decel_times_floor d
            have : (0 : ℚ) < deceleration * 8 := by norm_num [deceleration]
            linarith [decel_times_floor d]
          exact max_eq_left hle
        rw [this] at hmag
        norm_num [minVelocity] at hmag
      have hsign : |jsSign s.velocity| = 1 := by
        unfold jsSign
        split_ifs with hpos hneg
        · norm_num
        · norm_num
        · exact absurd (le_antisymm (not_lt.mp hneg) (not_lt.mp hpos)) (Ne.symm hv0)
      have hmagnn : 0 ≤ inertiaNextMagnitude d s := le_max_left 0 _
      have habs : |(inertiaStep d s).velocity| = inertiaNextMagnitude d s := by
        rw [hstep]
        show |inertiaNextMagnitude d s * jsSign s.velocity| = _
        rw [abs_mul, hsign, mul_one, abs_of_nonneg hmagnn]
      rw [habs]
      refine ⟨hmag, ?_⟩
      have hpos : 0 < inertiaNextMagnitude d s :=
        lt_trans (by norm_num [minVelocity]) hmag
      have heq : inertiaNextMagnitude d s = |s.velocity| - deceleration * max d 8 := by
        unfold inertiaNextMagnitude at hpos ⊢
        rcases le_or_lt (|s.velocity| - deceleration * max d 8) 0 with hle | hlt
        · rw [max_eq_left hle] at hpos; exact absurd hpos (lt_irrefl 0)
        · exact max_eq_right (le_of_lt hlt)
      rw [heq]
      linarith [decel_times_floor d]

lemma runInertia_decay (dts : List ℚ) (s : GestureState)
    (h : (runInertia s dts).running = true) :
    |(runInertia s dts).velocity|
        ≤ |s.velocity| - deceleration * 8 * (dts.length : ℚ) ∧
    (dts ≠ [] → minVelocity < |(runInertia s dts).velocity|) := by
  induction dts generalizing s with
  | nil =>
    refine ⟨by simp [runInertia], fun hne => absurd rfl hne⟩
  | cons d rest ih =>
    have hstep : runInertia s (d :: rest) = runInertia (inertiaStep d s) rest := by
      simp [runInertia]
    rw [hstep] at h ⊢
    cases hrun1 : (inertiaStep d s).running with
    | false =>
      rw [runInertia_of_not_running rest _ hrun1, hrun1] at h
      cases h
    | true =>
      obtain ⟨-, hgt, hle⟩ := inertiaStep_running_facts d s hrun1
      by_cases hre : rest = []
      · subst hre
        have hr : runInertia (inertiaStep d s) [] = inertiaStep d s := rfl
        rw [hr]
        constructor
        · have : ((([d] : List ℚ).length : ℚ)) = 1 := by norm_num
          rw [this]; linarith
        · intro _; exact hgt
      · obtain ⟨ih1, ih2⟩ := ih (inertiaStep d s) h
        constructor
        · have hlen : ((d :: rest).length : ℚ) = (rest.length : ℚ) + 1 := by
            push_cast [List.length_cons]; ring
          rw [hlen]
          have h8 : (0 : ℚ) ≤ deceleration * 8 := by norm_num [deceleration]
          calc |(runInertia (inertiaStep d s) rest).velocity|
              ≤ |(inertiaStep d s).velocity| - deceleration * 8 * (rest.length : ℚ) := ih1
            _ ≤ (|s.velocity| - deceleration * 8) - deceleration * 8 * (rest.length : ℚ) := by
                linarith
            _ = |s.velocity| - deceleration * 8 * ((rest.length : ℚ) + 1) := by ring
        · intro _; exact ih2 hre

/-- C6: inertial animation termination.  (1) A release whose velocity
magnitude is below 0.05 starts no animation at all and zeroes the
velocity, in both the pointer and the legacy-touch release paths.
(2) Starting the animation from a release with velocity magnitude at
most V, the animation has terminated after any V / (0.015 * 8) frames,
whatever the raw frame deltas are: each frame decays the magnitude by
0.015 * dt with dt floored at 8 ms, so it never runs forever.  (3) A
running frame stops the animation exactly when the view failed to move
(clamp boundary hit or zero advance) or the decayed magnitude has
dropped to at most 0.05.  (4) The touch release path is the same
function as the pointer release path. -/
theorem inertial_animation_terminates :
    (∀ s : GestureState, |s.velocity| < minVelocity →
        (handlePointerUp s).running = false ∧ (handlePointerUp s).velocity = 0 ∧
        (handleTouchEnd s).running = false ∧ (handleTouchEnd s).velocity = 0) ∧
    (∀ (s : GestureState) (V : ℚ) (dts : List ℚ), |s.velocity| ≤ V →
        V / (deceleration * 8) ≤ (dts.length : ℚ) →
        (runInertia (handlePointerUp s) dts).running = false) ∧
    (∀ (d : ℚ) (s : GestureState), s.running = true →
        ((inertiaStep d s).running = false ↔
          (inertiaMoved d s = false ∨ inertiaNextMagnitude d s ≤ minVelocity))) ∧
    (∀ s : GestureState, handleTouchEnd s = handlePointerUp s) := by
  have hrel : ∀ s : GestureState, |s.velocity| < minVelocity →
      handlePointerUp s = { s with lastY := none, lastTime := none,
                                   velocity := 0, running := false } := by
    intro s hs
    simp [handlePointerUp, hs]
  refine ⟨?_, ?_, ?_, ?_⟩
  · intro s hs
    rw [hrel s hs]
    have : handleTouchEnd s = handlePointerUp s := rfl
    rw [this, hrel s hs]
    exact ⟨rfl, rfl, rfl, rfl⟩
  · intro s V dts hV hlen
    by_cases hslow : |s.velocity| < minVelocity
    · have h0 : (handlePointerUp s).running = false := by rw [hrel s hslow]
      rw [runInertia_of_not_running dts _ h0]
      exact h0
    · have hk : handlePointerUp s
          = { s with lastY := none, lastTime := none, running := true } := by
        simp [handlePointerUp, hslow]
      by_contra hrun
      rw [Bool.not_eq_false] at hrun
      obtain ⟨hdec1, hdec2⟩ := runInertia_decay dts (handlePointerUp s) hrun
      have hvel : |(handlePointerUp s).velocity| = |s.velocity| := by rw [hk]
      have hVlow : minVelocity ≤ V := le_trans (not_lt.mp hslow) hV
      have hdpos : (0 : ℚ) < deceleration * 8 := by norm_num [deceleration]
      have hne : dts ≠ [] := by
        intro hnil
        subst hnil
        have hq : (0 : ℚ) < V / (deceleration * 8) :=
          div_pos (lt_of_lt_of_le (by norm_num [minVelocity]) hVlow) hdpos
        simp only [List.length_nil, Nat.cast_zero] at hlen
        linarith
      have hVle : V ≤ deceleration * 8 * (dts.length : ℚ) := by
        have := mul_le_mul_of_nonneg_right hlen (le_of_lt hdpos)
        rw [div_mul_cancel₀ V (ne_of_gt hdpos)] at this
        linarith
      have hfin := hdec2 hne
      rw [hvel] at hdec1
      have : minVelocity < V - deceleration * 8 * (dts.length : ℚ) := by
        calc minVelocity < |(runInertia (handlePointerUp s) dts).velocity| := hfin
          _ ≤ |s.velocity| - deceleration * 8 * (dts.length : ℚ) := hdec1
          _ ≤ V - deceleration * 8 * (dts.length : ℚ) := by linarith
      have : minVelocity < 0 := by linarith
      norm_num [minVelocity] at this
  · intro d s hrun
    by_cases hstop : inertiaMoved d s = false ∨ inertiaNextMagnitude d s ≤ minVelocity
    · simp [inertiaStep, hrun, hstop]
    · simp [inertiaStep, hrun, hstop]
  · intro s; rfl

/-- C6 witness: a release at velocity 1 on a 100/40 view is finished
after 12 frames of 9 ms (the bound 1 / (0.015 * 8) is below 12). -/
theorem inertial_termination_witness :
    (runInertia (handlePointerUp ⟨none, none, 1, ⟨100, 40, 0⟩, false⟩)
      (List.replicate 12 9)).running = false :=
  inertial_animation_terminates.2.1 ⟨none, none, 1, ⟨100, 40, 0⟩, false⟩ 1
    (List.replicate 12 9) (by norm_num)
    (by norm_num [deceleration, List.length_replicate])

/-- C3: delta reconciliation.  When no reset condition holds (the first
id matches the recorded one, or no id has been recorded yet) and
processedCount is strictly below the sequence length, the reconciliation
hands exactly one payload to enqueueWrite, equal to the concatenation in
order of the data fields of the chunks from index processedCount to the
end, then sets processedCount to the sequence length; no surface reset
happens. -/
theorem delta_single_enqueue (first : TerminalChunk) (rest : List TerminalChunk)
    (s : VState)
    (hId : s.firstChunkId = none ∨ s.firstChunkId = some first.id)
    (hLt : s.processedCount < (first :: rest).length) :
    (reconcileChunks (first :: rest) s).enqueueCalls
        = s.enqueueCalls ++
          [String.join (((first :: rest).drop s.processedCount).map TerminalChunk.data)] ∧
    (reconcileChunks (first :: rest) s).processedCount = (first :: rest).length ∧
    (reconcileChunks (first :: rest) s).resets = s.resets := by
  have hnogrow : ¬ (rest.length + 1 < s.processedCount) := by
    simpa using Nat.lt_asymm hLt
  have hLt2 : s.processedCount < rest.length + 1 := by simpa using hLt
  rcases hId with h0 | h0
  · simp [reconcileChunks, h0, hnogrow, hLt2,
      enqueueWrite_enqueueCalls, enqueueWrite_resets, enqueueWrite_processedCount]
  · simp [reconcileChunks, h0, hnogrow, hLt2,
      enqueueWrite_enqueueCalls, enqueueWrite_resets, enqueueWrite_processedCount]

/-- C3 witness: the chunks 1:"a", 2:"b" are fully processed
(processedCount = 2, first observed id 1); the store grows to
1:"a", 2:"b", 3:"c"; reconciliation enqueues exactly the payload "c"
and advances the cursor to 3, with no reset. -/
theorem delta_single_enqueue_witness :
    (reconcileChunks [⟨1, "a"⟩, ⟨2, "b"⟩, ⟨3, "c"⟩]
        { initState with processedCount := 2, firstChunkId := some 1 }).enqueueCalls
      = ({ initState with processedCount := 2, firstChunkId := some 1 } : VState).enqueueCalls
          ++ [String.join ((([⟨1, "a"⟩, ⟨2, "b"⟩, ⟨3, "c"⟩] : List TerminalChunk).drop
                ({ initState with processedCount := 2, firstChunkId := some 1 } : VState).processedCount).map
                TerminalChunk.data)] ∧
    (reconcileChunks [⟨1, "a"⟩, ⟨2, "b"⟩, ⟨3, "c"⟩]
        { initState with processedCount := 2, firstChunkId := some 1 }).processedCount
      = ([⟨1, "a"⟩, ⟨2, "b"⟩, ⟨3, "c"⟩] : List TerminalChunk).length ∧
    (reconcileChunks [⟨1, "a"⟩, ⟨2, "b"⟩, ⟨3, "c"⟩]
        { initState with processedCount := 2, firstChunkId := some 1 }).resets
      = ({ initState with processedCount := 2, firstChunkId := some 1 } : VState).resets :=
  delta_single_enqueue ⟨1, "a"⟩ [⟨2, "b"⟩, ⟨3, "c"⟩]
    { initState with processedCount := 2, firstChunkId := some 1 }
    (Or.inr rfl) (by decide)

/-- C2: reset reconciliation.  On a non-empty chunk sequence, when the
recorded first observed id differs from the current first id, or
processedCount exceeds the sequence length, the reconciliation resets
the rendering surface (resets grows by one) and clears the Write Queue
before enqueueing anything, records the current first id, and computes
the delta with a cleared cursor: the single payload handed to
enqueueWrite is the concatenation of the whole current sequence, so the
content delivered to the surface (the issued trace) gains only data of
the current sequence, nothing from the pre-reset one, and processedCount
ends at the sequence length. -/
theorem reset_reconciliation (first : TerminalChunk) (rest : List TerminalChunk)
    (s : VState)
    (hcond : (∃ j, s.firstChunkId = some j ∧ j ≠ first.id) ∨
             (first :: rest).length < s.processedCount) :
    (reconcileChunks (first :: rest) s).resets = s.resets + 1 ∧
    (reconcileChunks (first :: rest) s).firstChunkId = some first.id ∧
    (reconcileChunks (first :: rest) s).processedCount = (first :: rest).length ∧
    (reconcileChunks (first :: rest) s).enqueueCalls
        = s.enqueueCalls ++ [String.join ((first :: rest).map TerminalChunk.data)] ∧
    (reconcileChunks (first :: rest) s).writeQueue = [] ∧
    (reconcileChunks (first :: rest) s).issued
        = s.issued ++ (if String.join ((first :: rest).map TerminalChunk.data) = ""
                       then [] else [String.join ((first :: rest).map TerminalChunk.data)]) := by
  have hpos : 0 < (first :: rest).length := Nat.succ_pos _
  have key : reconcileChunks (first :: rest) s =
      (let payload := String.join ((first :: rest).map TerminalChunk.data)
       { enqueueWrite payload
           { writeQueue := [], isWriting := false, processedCount := 0,
             firstChunkId := some first.id, issued := s.issued,
             completed := s.completed, resets := s.resets + 1,
             fitCalls := s.fitCalls, enqueueCalls := s.enqueueCalls ++ [payload] } with
         processedCount := (first :: rest).length }) := by
    rcases hcond with ⟨j, hj, hne⟩ | hlen
    · simp [reconcileChunks, resetWriteState, hj, hne]
    · have hlen2 : rest.length + 1 < s.processedCount := by simpa using hlen
      by_cases h0 : s.firstChunkId = none
      · simp [reconcileChunks, resetWriteState, h0, hlen2]
      · simp [reconcileChunks, resetWriteState, h0, hlen2]
  rw [key]
  simp [enqueueWrite_resets, enqueueWrite_firstChunkId, enqueueWrite_processedCount,
    enqueueWrite_enqueueCalls, enqueueWrite_writeQueue, enqueueWrite_issued_cases]

/-- C2 witness: a store that started at id 5 with one processed chunk is
wholesale replaced by a store starting at id 9 with payload "x":
reconciliation resets the surface once, records first id 9, clears the
queue, and the only content enqueued and delivered is "x". -/
theorem reset_reconciliation_witness :
    (reconcileChunks [⟨9, "x"⟩]
        { initState with processedCount := 1, firstChunkId := some 5 }).resets
      = ({ initState with processedCount := 1, firstChunkId := some 5 } : VState).resets + 1 ∧
    (reconcileChunks [⟨9, "x"⟩]
        { initState with processedCount := 1, firstChunkId := some 5 }).firstChunkId
      = some (9 : Int) ∧
    (reconcileChunks [⟨9, "x"⟩]
        { initState with processedCount := 1, firstChunkId := some 5 }).processedCount
      = ([⟨9, "x"⟩] : List TerminalChunk).length ∧
    (reconcileChunks [⟨9, "x"⟩]
        { initState with processedCount := 1, firstChunkId := some 5 }).enqueueCalls
      = ({ initState with processedCount := 1, firstChunkId := some 5 } : VState).enqueueCalls
          ++ [String.join (([⟨9, "x"⟩] : List TerminalChunk).map TerminalChunk.data)] ∧
    (reconcileChunks [⟨9, "x"⟩]
        { initState with processedCount := 1, firstChunkId := some 5 }).writeQueue = [] ∧
    (reconcileChunks [⟨9, "x"⟩]
        { initState with processedCount := 1, firstChunkId := some 5 }).issued
      = ({ initState with processedCount := 1, firstChunkId := some 5 } : VState).issued
          ++ (if String.join (([⟨9, "x"⟩] : List TerminalChunk).map TerminalChunk.data) = ""
              then [] else [String.join (([⟨9, "x"⟩] : List TerminalChunk).map TerminalChunk.data)]) :=
  reset_reconciliation ⟨9, "x"⟩ []
    { initState with processedCount := 1, firstChunkId := some 5 }
    (Or.inl ⟨5, rfl, by decide⟩)

lemma reconcile_cursor (first : TerminalChunk) (rest : List TerminalChunk) (s : VState) :
    (reconcileChunks (first :: rest) s).processedCount = (first :: rest).length ∧
    (reconcileChunks (first :: rest) s).firstChunkId = some first.id := by
  simp only [reconcileChunks]
  split_ifs with h1 h2 h3 <;>
    simp_all [resetWriteState, enqueueWrite_processedCount, enqueueWrite_firstChunkId] <;>
    omega

lemma reconcile_stable (first : TerminalChunk) (rest : List TerminalChunk) (t : VState)
    (h1 : t.processedCount = (first :: rest).length)
    (h2 : t.firstChunkId = some first.id) :
    reconcileChunks (first :: rest) t = t := by
  simp [reconcileChunks, h1, h2]

/-- C4: reconciliation is idempotent on an unchanged store.  Running the
reconciliation a second time on the same chunk sequence returns the
state of the first run unchanged: in particular no payload is handed to
enqueueWrite, no surface reset and no write is issued the second
time. -/
theorem reconciliation_idempotent (chunks : List TerminalChunk) (s : VState) :
    reconcileChunks chunks (reconcileChunks chunks s) = reconcileChunks chunks s := by
  cases chunks with
  | nil =>
    by_cases h : s.processedCount ≠ 0
    · have h1 : reconcileChunks [] s
          = { resetWriteState { s with resets := s.resets + 1 } with
              fitCalls := s.fitCalls + 1 } := by
        simp [reconcileChunks, h]
      rw [h1]
      simp [reconcileChunks, resetWriteState]
    · have h1 : reconcileChunks [] s = s := by simp [reconcileChunks, h]
      rw [h1]
      exact h1
  | cons first rest =>
    obtain ⟨h1, h2⟩ := reconcile_cursor first rest s
    exact reconcile_stable first rest _ h1 h2

/-- C9 witness: an ignored 0.25 pixel sample rewrites lastY and
lastTime to its own values in both paths. -/
theorem ignored_sample_witness :
    handlePointerMove 200.25 31 ⟨some 200, some 30, 2, ⟨300, 50, 7⟩, false⟩
        = ⟨some 200.25, some 31, 2, ⟨300, 50, 7⟩, false⟩ ∧
    handleTouchMove 200.25 31 ⟨some 200, some 30, 2, ⟨300, 50, 7⟩, false⟩
        = ⟨some 200.25, some 31, 2, ⟨300, 50, 7⟩, false⟩ :=
  ignored_sample_overwrites_last 200.25 31 200 _ rfl (by rw [abs_lt]; constructor <;> norm_num)

end OpenChamber
